import Mathlib

/-!
Verification of the prediction-form controller in `src/app/page.tsx`.

The source is a single React client component.  We embed its state
(`inputValues`, `predictionResult`, `isLoading`, `error`), its handlers
(`handleInputChange`, `handleSubmit`, `handleReset`, `handleFillSample`),
and the result renderer (`ResultDisplay`) as pure Lean definitions.
`handleSubmit` is modelled as a trace of primitive effects (state setters
and the one `fetch` request), with the network outcome supplied as an
explicit parameter; folding the trace over a state yields the post-state,
and filtering it yields the list of HTTP requests issued.

JavaScript numbers are modelled exactly: `parseFloat` follows the
ECMAScript grammar (longest valid prefix after trimming leading
whitespace, including the `Infinity` literal and NaN for unparsable
input) but returns the exact decimal value as a rational instead of the
nearest IEEE-754 double; none of the verified properties depend on
rounding or overflow of the double format.
-/

/-- A JavaScript number as produced by `parseFloat`: NaN, a signed
infinity, or a finite value (modelled as the exact rational). -/
inductive JsNum where
  | nan : JsNum
  | inf (neg : Bool) : JsNum
  | finite (q : ℚ) : JsNum
deriving DecidableEq, Repr

/-- `isNaN(x)` for a parsed number, as used by the validation check. -/
def JsNum.isNaN : JsNum → Bool
  | .nan => true
  | _ => false

/-- True exactly when the number is finite (neither NaN nor infinite). -/
def JsNum.isFinite : JsNum → Bool
  | .finite _ => true
  | _ => false

/-- The rational value of a finite `JsNum` (0 for NaN and infinities). -/
def JsNum.toQ : JsNum → ℚ
  | .finite q => q
  | _ => 0

/-- ECMAScript whitespace accepted before a numeric literal. -/
def isJsWhitespace (c : Char) : Bool :=
  c = ' ' || c = '\t' || c = '\n' || c = '\r' ||
  c = Char.ofNat 11 || c = Char.ofNat 12 || c = Char.ofNat 0xA0 ||
  c = Char.ofNat 0xFEFF

/-- Does the character list begin with the literal `Infinity`? -/
def startsWithInfinity : List Char → Bool
  | 'I' :: 'n' :: 'f' :: 'i' :: 'n' :: 'i' :: 't' :: 'y' :: _ => true
  | _ => false

/-- Natural value of a list of decimal digit characters. -/
def digitsVal (ds : List Char) : ℕ :=
  ds.foldl (fun a c => a * 10 + (c.toNat - 48)) 0

/-- Longest valid prefix of an unsigned decimal literal
(`DecimalDigits . DecimalDigits? ExponentPart?` or
`. DecimalDigits ExponentPart?`), returning its exact value, or `none`
when no prefix is a valid literal.  With integer digits `ip`, fractional
digits `fp` (so the mantissa is `digitsVal (ip ++ fp) / 10 ^ fp.length`)
and signed exponent `±e`, the value is the single fraction
`digitsVal (ip ++ fp) * 10 ^ e / 10 ^ fp.length` (exponent positive) or
`digitsVal (ip ++ fp) / 10 ^ (fp.length + e)` (exponent negative),
written with `mkRat` so that the result is kernel-computable. -/
def parseUnsignedDecimal (cs : List Char) : Option ℚ :=
  let ip := cs.takeWhile Char.isDigit
  let r1 := cs.dropWhile Char.isDigit
  let fr : List Char × List Char :=
    match r1 with
    | '.' :: r => (r.takeWhile Char.isDigit, r.dropWhile Char.isDigit)
    | _ => ([], r1)
  let fp := fr.1
  let r2 := fr.2
  if ip.isEmpty && fp.isEmpty then none
  else
    let m := digitsVal (ip ++ fp)
    let ex : Bool × List Char :=
      match r2 with
      | 'e' :: '-' :: r => (true, r.takeWhile Char.isDigit)
      | 'E' :: '-' :: r => (true, r.takeWhile Char.isDigit)
      | 'e' :: '+' :: r => (false, r.takeWhile Char.isDigit)
      | 'E' :: '+' :: r => (false, r.takeWhile Char.isDigit)
      | 'e' :: r => (false, r.takeWhile Char.isDigit)
      | 'E' :: r => (false, r.takeWhile Char.isDigit)
      | _ => (false, [])
    let e := digitsVal ex.2
    some (if ex.1 then mkRat m (10 ^ (fp.length + e))
          else mkRat (m * 10 ^ e) (10 ^ fp.length))

/-- Parse a possibly `Infinity`-valued unsigned literal, applying the
already-consumed sign. -/
def parseSigned (neg : Bool) (cs : List Char) : JsNum :=
  if startsWithInfinity cs then .inf neg
  else
    match parseUnsignedDecimal cs with
    | some q => .finite (if neg then -q else q)
    | none => .nan

/-- ECMAScript `parseFloat`: trim leading whitespace, read an optional
sign, then the longest valid decimal or `Infinity` literal prefix; NaN
when no prefix parses.  Values are exact rationals (see module header). -/
def parseFloat (s : String) : JsNum :=
  match s.data.dropWhile isJsWhitespace with
  | '-' :: r => parseSigned true r
  | '+' :: r => parseSigned false r
  | cs => parseSigned false cs

example : parseFloat "17.99" = .finite (mkRat 1799 100) := by decide
example : parseFloat "" = .nan := by decide
example : parseFloat "abc" = .nan := by decide
example : parseFloat "Infinity" = .inf false := by decide
example : parseFloat "-Infinity" = .inf true := by decide
example : parseFloat "  3.5e2" = .finite 350 := by decide
example : parseFloat ".5" = .finite (mkRat 1 2) := by decide
example : parseFloat "1e" = .finite 1 := by decide
example : parseFloat "0x10" = .finite 0 := by decide
example : parseFloat "-2.5" = .finite (-(mkRat 5 2)) := by decide
example : parseFloat "1.5e-2" = .finite (mkRat 3 200) := by decide

/-- A JSON value (the shape of the request body and of values inside a
response).  JavaScript `undefined` is modelled by `Option` at use sites,
not as a `Json` constructor, matching the fact that JSON itself has no
undefined. -/
inductive Json where
  | null : Json
  | bool (b : Bool) : Json
  | num (q : ℚ) : Json
  | str (s : String) : Json
  | arr (elems : List Json) : Json
  | obj (fields : List (String × Json)) : Json

/-- `JSON.stringify` serialization of a JavaScript number: finite numbers
serialize as themselves, NaN and the infinities serialize as `null`. -/
def jsonOfNum : JsNum → Json
  | .finite q => .num q
  | .nan => .null
  | .inf _ => .null

/-- The response record the component types as `PredictionResult`:
`prediction: number | object`, optional `probability`, optional
`details`.  `prediction` is `Option Json` because the runtime value is
whatever JSON the server returned; `none` models an absent field
(`undefined`).  `probability` is kept at its declared numeric type. -/
structure PredictionResult where
  prediction : Option Json
  probability : Option ℚ
  details : Option Json

/-- JavaScript `typeof x === 'object'`, for the dispatch in
`ResultDisplay`: objects, arrays and `null` answer true; numbers,
strings, booleans and `undefined` answer false. -/
def typeofIsObject : Option Json → Bool
  | some (.obj _) => true
  | some (.arr _) => true
  | some .null => true
  | _ => false

/-- `Number.prototype.toFixed(2)` on an exact rational, per ECMAScript:
a leading minus sign for negative input, then the integer `n` nearest to
`|q| * 100` (ties resolved upward, i.e. `n = ⌊|q| * 100 + 1/2⌋`) printed
with the last two digits after a decimal point.  For `q ≥ 0` with
numerator `num` and denominator `den`, `⌊q * 100 + 1/2⌋` is the integer
quotient `(200 * num + den) / (2 * den)`, which is how it is computed
here so that the kernel can evaluate it. -/
def toFixed2Abs (q : ℚ) : String :=
  let n : ℕ := ((200 * q.num + (q.den : ℤ)) / (2 * (q.den : ℤ))).toNat
  toString (n / 100) ++ "." ++
    (if n % 100 < 10 then "0" ++ toString (n % 100) else toString (n % 100))

/-- `toFixed(2)` with the ECMAScript sign handling (negative numbers are
formatted by their absolute value behind a minus sign). -/
def toFixed2 (q : ℚ) : String :=
  if q.num < 0 then "-" ++ toFixed2Abs (-q) else toFixed2Abs q

example : toFixed2 97 = "97.00" := by decide
example : toFixed2 (mkRat 1234 1000) = "1.23" := by decide
example : toFixed2 (mkRat 1235 1000) = "1.24" := by decide
example : toFixed2 (-(mkRat 5 1000)) = "-0.01" := by decide

/-- The central green block of `ResultDisplay`: either the
pretty-printed prediction object (taken when
`typeof result.prediction === 'object'`), or the prominently shown
prediction value together with the optional confidence line
`Confidence: <(probability * 100).toFixed(2)>%`.  In the value block,
`none` stands for the `"No prediction value"` placeholder shown when
`prediction` is `undefined`. -/
inductive RenderedMain where
  | objectBlock (pretty : Option Json) : RenderedMain
  | valueBlock (value : Option Json) (confidence : Option String) : RenderedMain

/-- Everything `ResultDisplay` renders from a result: the raw response
(always pretty-printed verbatim), the main block, and the additional
details block, shown only when `result.details` is truthy. -/
structure Rendered where
  rawResponse : PredictionResult
  main : RenderedMain
  details : Option Json

/-- JavaScript truthiness of the optional `details` value, used by the
`result.details && ...` guard. -/
def jsTruthy : Option Json → Bool
  | none => false
  | some .null => false
  | some (.bool b) => b
  | some (.num q) => !(q = 0)
  | some (.str s) => !(s = "")
  | some (.arr _) => true
  | some (.obj _) => true

/-- The `ResultDisplay` component as a pure projection of a
`PredictionResult` into what it renders. -/
def renderResult (result : PredictionResult) : Rendered :=
  { rawResponse := result
    main :=
      if typeofIsObject result.prediction then
        .objectBlock result.prediction
      else
        .valueBlock result.prediction
          (result.probability.map fun p => toFixed2 (p * 100) ++ "%")
    details := if jsTruthy result.details then result.details else none }

/-- The four `useState` cells of the `Home` component. -/
structure AppState where
  inputValues : List String
  predictionResult : Option PredictionResult
  isLoading : Bool
  error : Option String

/-- The initial state of the component: 30 empty strings, no result, not
loading, no error. -/
def initState : AppState :=
  { inputValues := List.replicate 30 ""
    predictionResult := none
    isLoading := false
    error := none }

/-- One outbound HTTP request as passed to `fetch`. -/
structure Request where
  url : String
  method : String
  headers : List (String × String)
  body : Json

/-- A `fetch` response: its status code and the outcome of
`response.json()` (either the parsed body or the message of the error
thrown by a failed JSON parse). -/
structure FetchResponse where
  status : ℕ
  jsonBody : Except String PredictionResult

/-- `Response.ok`: status in the inclusive range 200 to 299. -/
def FetchResponse.ok (r : FetchResponse) : Bool :=
  200 ≤ r.status && r.status ≤ 299

/-- The behaviour of the network on the one `fetch` call: either the
promise rejects with an error carrying the given message, or a response
arrives. -/
inductive FetchOutcome where
  | failure (msg : String) : FetchOutcome
  | success (resp : FetchResponse) : FetchOutcome

/-- A primitive effect performed by `handleSubmit`: one of the three
state setters it uses, or the `fetch` call itself. -/
inductive Effect where
  | setIsLoading (b : Bool) : Effect
  | setError (e : Option String) : Effect
  | setPredictionResult (r : Option PredictionResult) : Effect
  | fetchRequest (req : Request) : Effect

/-- The hard-coded endpoint URL of the `fetch` call. -/
def endpointUrl : String := "https://cancer-web-production.up.railway.app/predict/"

/-- The request `handleSubmit` builds: POST to the fixed URL, JSON
content type, body a JSON object with the single key `input_data`
holding the serialized numeric array. -/
def predictRequest (numericValues : List JsNum) : Request :=
  { url := endpointUrl
    method := "POST"
    headers := [("Content-Type", "application/json")]
    body := .obj [("input_data", .arr (numericValues.map jsonOfNum))] }

/-- The fallback error text of the catch handler. -/
def fallbackErrorText : String := "An error occurred while making the prediction"

/-- `msg || fallback`: the catch handler shows the caught message unless
it is falsy (the empty string), in which case the fallback text. -/
def orFallback (msg : String) : String :=
  if msg = "" then fallbackErrorText else msg

/-- The validation error text. -/
def validationErrorText : String := "All fields must contain valid numbers"

/-- The effect trace of one run of `handleSubmit`, given the current
field values and the network outcome.  It mirrors the source line by
line: set loading, clear the error, parse all fields with `parseFloat`;
if any parse is NaN, set the validation error and stop; otherwise issue
the POST and then, depending on the outcome, either store the parsed
body, or set `API error: <status>` for a non-ok status, or set the
caught message (with fallback); `finally` clears the loading flag. -/
def handleSubmitTrace (inputValues : List String) (net : FetchOutcome) :
    List Effect :=
  let numericValues := inputValues.map parseFloat
  if numericValues.any JsNum.isNaN then
    [.setIsLoading true, .setError none,
     .setError (some validationErrorText), .setIsLoading false]
  else
    [.setIsLoading true, .setError none,
     .fetchRequest (predictRequest numericValues)] ++
    (match net with
     | .failure msg => [.setError (some (orFallback msg))]
     | .success resp =>
       if resp.ok then
         match resp.jsonBody with
         | .ok data => [.setPredictionResult (some data)]
         | .error msg => [.setError (some (orFallback msg))]
       else
         [.setError (some (orFallback ("API error: " ++ toString resp.status)))]) ++
    [.setIsLoading false]

/-- How each effect acts on the component state (a `fetch` call does not
change the state). -/
def applyEffect (s : AppState) : Effect → AppState
  | .setIsLoading b => { s with isLoading := b }
  | .setError e => { s with error := e }
  | .setPredictionResult r => { s with predictionResult := r }
  | .fetchRequest _ => s

/-- Run a list of effects over a state. -/
def runEffects (s : AppState) (es : List Effect) : AppState :=
  es.foldl applyEffect s

/-- The HTTP requests issued by a list of effects. -/
def requestsOf (es : List Effect) : List Request :=
  es.filterMap fun e =>
    match e with
    | .fetchRequest req => some req
    | _ => none

/-- `handleSubmit` as a state transformer: the post-state and the list
of HTTP requests issued during the run. -/
def handleSubmit (s : AppState) (net : FetchOutcome) :
    AppState × List Request :=
  (runEffects s (handleSubmitTrace s.inputValues net),
   requestsOf (handleSubmitTrace s.inputValues net))

/-- `handleInputChange`: copy the field array and overwrite the entry at
`index` with the raw string.  The UI only ever calls it with an index of
an existing entry (0 to 29). -/
def handleInputChange (s : AppState) (index : ℕ) (value : String) : AppState :=
  { s with inputValues := s.inputValues.set index value }

/-- `handleReset`: 30 empty strings, no result, no error. -/
def handleReset (s : AppState) : AppState :=
  { s with inputValues := List.replicate 30 ""
           predictionResult := none
           error := none }

/-- The hard-coded sample values of `handleFillSample`. -/
def sampleValues : List String :=
  ["17.99", "10.38", "122.8", "1001", "0.1184", "0.2776", "0.3001",
   "0.1471", "0.2419", "0.07871", "1.095", "0.9053", "8.589", "153.4",
   "0.006399", "0.04904", "0.05373", "0.01587", "0.03003", "0.006193",
   "25.38", "17.33", "184.6", "2019", "0.1622", "0.6656", "0.7119",
   "0.2654", "0.23", "0.45"]

/-- `handleFillSample`: overwrite the field array with the sample. -/
def handleFillSample (s : AppState) : AppState :=
  { s with inputValues := sampleValues }

/-- An interaction the page can generate: a change event of one of the
30 rendered inputs, the two buttons, or a form submission (with the
network outcome of its `fetch`). -/
inductive UIOp where
  | change (index : ℕ) (value : String) : UIOp
  | fillSample : UIOp
  | reset : UIOp
  | submit (net : FetchOutcome) : UIOp

/-- The page renders exactly 30 inputs, so change events carry an index
below 30; the other operations are unconstrained. -/
def UIOp.inRange : UIOp → Bool
  | .change index _ => index < 30
  | _ => true

/-- One step of the UI: dispatch an interaction to its handler. -/
def step (s : AppState) : UIOp → AppState
  | .change index value => handleInputChange s index value
  | .fillSample => handleFillSample s
  | .reset => handleReset s
  | .submit net => (handleSubmit s net).1

theorem api_error_text_ne_empty (x : String) : "API error: " ++ x ≠ "" := by
  intro h
  have hlen : ("API error: " ++ x).length = ("" : String).length := by rw [h]
  rw [String.length_append] at hlen
  have h11 : ("API error: " : String).length = 11 := rfl
  have h0 : ("" : String).length = 0 := rfl
  omega

theorem orFallback_api_error (x : String) :
    orFallback ("API error: " ++ x) = "API error: " ++ x := by
  unfold orFallback
  rw [if_neg (api_error_text_ne_empty x)]

theorem applyEffect_inputValues (t : AppState) (e : Effect) :
    (applyEffect t e).inputValues = t.inputValues := by
  cases e <;> rfl

theorem runEffects_inputValues (es : List Effect) (s : AppState) :
    (runEffects s es).inputValues = s.inputValues := by
  induction es generalizing s with
  | nil => rfl
  | cons e es ih =>
    calc (runEffects s (e :: es)).inputValues
        = (runEffects (applyEffect s e) es).inputValues := rfl
      _ = (applyEffect s e).inputValues := ih _
      _ = s.inputValues := applyEffect_inputValues s e

theorem JsNum.isNaN_eq_false_of_isFinite {n : JsNum} (h : n.isFinite = true) :
    n.isNaN = false := by
  cases n <;> simp_all [JsNum.isFinite, JsNum.isNaN]

theorem any_isNaN_eq_false (inputs : List String)
    (h : ∀ v ∈ inputs, (parseFloat v).isNaN = false) :
    (inputs.map parseFloat).any JsNum.isNaN = false := by
  rw [List.any_eq_false]
  intro x hx
  rw [List.mem_map] at hx
  obtain ⟨v, hv, rfl⟩ := hx
  simp [h v hv]

theorem trace_invalid (inputs : List String) (net : FetchOutcome)
    (h : (inputs.map parseFloat).any JsNum.isNaN = true) :
    handleSubmitTrace inputs net =
      [.setIsLoading true, .setError none,
       .setError (some validationErrorText), .setIsLoading false] := by
  simp [handleSubmitTrace, h]

theorem trace_valid_failure (inputs : List String) (msg : String)
    (h : (inputs.map parseFloat).any JsNum.isNaN = false) :
    handleSubmitTrace inputs (.failure msg) =
      [.setIsLoading true, .setError none,
       .fetchRequest (predictRequest (inputs.map parseFloat)),
       .setError (some (orFallback msg)), .setIsLoading false] := by
  simp [handleSubmitTrace, h]

theorem trace_valid_badstatus (inputs : List String) (resp : FetchResponse)
    (h : (inputs.map parseFloat).any JsNum.isNaN = false)
    (hok : resp.ok = false) :
    handleSubmitTrace inputs (.success resp) =
      [.setIsLoading true, .setError none,
       .fetchRequest (predictRequest (inputs.map parseFloat)),
       .setError (some (orFallback ("API error: " ++ toString resp.status))),
       .setIsLoading false] := by
  simp [handleSubmitTrace, h, hok]

theorem trace_valid_badjson (inputs : List String) (resp : FetchResponse)
    (msg : String)
    (h : (inputs.map parseFloat).any JsNum.isNaN = false)
    (hok : resp.ok = true) (hb : resp.jsonBody = .error msg) :
    handleSubmitTrace inputs (.success resp) =
      [.setIsLoading true, .setError none,
       .fetchRequest (predictRequest (inputs.map parseFloat)),
       .setError (some (orFallback msg)), .setIsLoading false] := by
  simp [handleSubmitTrace, h, hok, hb]

theorem trace_valid_ok (inputs : List String) (resp : FetchResponse)
    (data : PredictionResult)
    (h : (inputs.map parseFloat).any JsNum.isNaN = false)
    (hok : resp.ok = true) (hb : resp.jsonBody = .ok data) :
    handleSubmitTrace inputs (.success resp) =
      [.setIsLoading true, .setError none,
       .fetchRequest (predictRequest (inputs.map parseFloat)),
       .setPredictionResult (some data), .setIsLoading false] := by
  simp [handleSubmitTrace, h, hok, hb]

theorem handleSubmit_state_invalid (s : AppState) (net : FetchOutcome)
    (h : (s.inputValues.map parseFloat).any JsNum.isNaN = true) :
    (handleSubmit s net).1 =
      { s with isLoading := false, error := some validationErrorText } := by
  show runEffects s (handleSubmitTrace s.inputValues net) = _
  rw [trace_invalid _ _ h]
  rfl

theorem handleSubmit_state_netfail (s : AppState) (msg : String)
    (h : (s.inputValues.map parseFloat).any JsNum.isNaN = false) :
    (handleSubmit s (.failure msg)).1 =
      { s with isLoading := false, error := some (orFallback msg) } := by
  show runEffects s (handleSubmitTrace s.inputValues (.failure msg)) = _
  rw [trace_valid_failure _ _ h]
  rfl

theorem handleSubmit_state_badstatus (s : AppState) (resp : FetchResponse)
    (h : (s.inputValues.map parseFloat).any JsNum.isNaN = false)
    (hok : resp.ok = false) :
    (handleSubmit s (.success resp)).1 =
      { s with isLoading := false
               error := some ("API error: " ++ toString resp.status) } := by
  show runEffects s (handleSubmitTrace s.inputValues (.success resp)) = _
  rw [trace_valid_badstatus _ _ h hok, ← orFallback_api_error (toString resp.status)]
  rfl

theorem handleSubmit_state_badjson (s : AppState) (resp : FetchResponse)
    (msg : String)
    (h : (s.inputValues.map parseFloat).any JsNum.isNaN = false)
    (hok : resp.ok = true) (hb : resp.jsonBody = .error msg) :
    (handleSubmit s (.success resp)).1 =
      { s with isLoading := false, error := some (orFallback msg) } := by
  show runEffects s (handleSubmitTrace s.inputValues (.success resp)) = _
  rw [trace_valid_badjson _ _ _ h hok hb]
  rfl

theorem handleSubmit_state_ok (s : AppState) (resp : FetchResponse)
    (data : PredictionResult)
    (h : (s.inputValues.map parseFloat).any JsNum.isNaN = false)
    (hok : resp.ok = true) (hb : resp.jsonBody = .ok data) :
    (handleSubmit s (.success resp)).1 =
      { s with isLoading := false, error := none
               predictionResult := some data } := by
  show runEffects s (handleSubmitTrace s.inputValues (.success resp)) = _
  rw [trace_valid_ok _ _ _ h hok hb]
  rfl

theorem requests_valid (s : AppState) (net : FetchOutcome)
    (h : (s.inputValues.map parseFloat).any JsNum.isNaN = false) :
    (handleSubmit s net).2 = [predictRequest (s.inputValues.map parseFloat)] := by
  show requestsOf (handleSubmitTrace s.inputValues net) = _
  rcases net with msg | resp
  · rw [trace_valid_failure _ _ h]; rfl
  · rcases hok : resp.ok with _ | _
    · rw [trace_valid_badstatus _ _ h hok]; rfl
    · rcases hb : resp.jsonBody with msg | data
      · rw [trace_valid_badjson _ _ _ h hok hb]; rfl
      · rw [trace_valid_ok _ _ _ h hok hb]; rfl

/-- `C6`: `reset()` always yields exactly 30 empty-string entries, a
cleared Prediction Result and a cleared error, regardless of the prior
state, and applying it twice equals applying it once. -/
theorem c6_reset_clears_state_idempotent (s : AppState) :
    (handleReset s).inputValues = List.replicate 30 "" ∧
    (handleReset s).predictionResult = none ∧
    (handleReset s).error = none ∧
    handleReset (handleReset s) = handleReset s :=
  ⟨rfl, rfl, rfl, rfl⟩

/-- `C7`: for an in-range index, `updateField` stores the raw string
verbatim at that index and leaves every other entry, the Prediction
Result, the error and the in-flight flag unchanged. -/
theorem c7_update_field_verbatim_and_frame (s : AppState) (i : ℕ) (v : String)
    (hlen : s.inputValues.length = 30) (hi : i < 30) :
    (handleInputChange s i v).inputValues[i]? = some v ∧
    (∀ j, j ≠ i → (handleInputChange s i v).inputValues[j]? = s.inputValues[j]?) ∧
    (handleInputChange s i v).inputValues.length = 30 ∧
    (handleInputChange s i v).predictionResult = s.predictionResult ∧
    (handleInputChange s i v).error = s.error ∧
    (handleInputChange s i v).isLoading = s.isLoading := by
  refine ⟨?_, ?_, ?_, rfl, rfl, rfl⟩
  · show (s.inputValues.set i v)[i]? = some v
    rw [List.getElem?_set_self (by omega)]
  · intro j hj
    show (s.inputValues.set i v)[j]? = s.inputValues[j]?
    rw [List.getElem?_set_ne (fun h => hj h.symm)]
  · show (s.inputValues.set i v).length = 30
    rw [List.length_set, hlen]

theorem c7_witness :
    (initState.inputValues.length = 30 ∧ 0 < 30) ∧
    ((handleInputChange initState 0 "42").inputValues[0]? = some "42" ∧
     (∀ j, j ≠ 0 →
       (handleInputChange initState 0 "42").inputValues[j]? = initState.inputValues[j]?) ∧
     (handleInputChange initState 0 "42").inputValues.length = 30 ∧
     (handleInputChange initState 0 "42").predictionResult = initState.predictionResult ∧
     (handleInputChange initState 0 "42").error = initState.error ∧
     (handleInputChange initState 0 "42").isLoading = initState.isLoading) :=
  ⟨⟨by decide, by decide⟩,
   c7_update_field_verbatim_and_frame initState 0 "42" (by decide) (by decide)⟩

/-- `C8`: when the stored result has a numeric `prediction`, the result
renderer takes the value branch, showing that number with the optional
confidence line `probability * 100` formatted by `toFixed(2)` plus a
percent sign; in particular prediction 1 with probability 0.97 renders
value 1 and confidence `97.00%`. -/
theorem c8_numeric_prediction_render (q : ℚ) (prob : Option ℚ) (det : Option Json) :
    (renderResult
        { prediction := some (.num q), probability := prob, details := det }).main =
      RenderedMain.valueBlock (some (.num q))
        (prob.map fun p => toFixed2 (p * 100) ++ "%") ∧
    (renderResult
        { prediction := some (.num 1), probability := some 0.97,
          details := none }).main =
      RenderedMain.valueBlock (some (.num 1)) (some "97.00%") := by
  constructor
  · rfl
  · have h100 : (0.97 : ℚ) * 100 = 97 := by norm_num
    show RenderedMain.valueBlock (some (.num 1))
        (some (toFixed2 ((0.97 : ℚ) * 100) ++ "%")) =
      RenderedMain.valueBlock (some (.num 1)) (some "97.00%")
    rw [h100]
    have h97 : toFixed2 (97 : ℚ) ++ "%" = "97.00%" := by decide
    rw [h97]

/-- `C1`: for every 30-entry feature vector in which every entry parses
as a finite number, `submit()` issues exactly one HTTP POST to the fixed
endpoint URL with the JSON content-type header and a body whose
`input_data` key maps to the 30 parsed numbers in original field
order. -/
theorem c1_submit_posts_parsed_vector (s : AppState) (net : FetchOutcome)
    (hlen : s.inputValues.length = 30)
    (hfin : ∀ v ∈ s.inputValues, (parseFloat v).isFinite = true) :
    (handleSubmit s net).2 =
      [{ url := "https://cancer-web-production.up.railway.app/predict/"
         method := "POST"
         headers := [("Content-Type", "application/json")]
         body := Json.obj [("input_data",
           Json.arr (s.inputValues.map fun v => Json.num ((parseFloat v).toQ)))] }] ∧
    (s.inputValues.map fun v => Json.num ((parseFloat v).toQ)).length = 30 := by
  have hnan : (s.inputValues.map parseFloat).any JsNum.isNaN = false :=
    any_isNaN_eq_false _ fun v hv => JsNum.isNaN_eq_false_of_isFinite (hfin v hv)
  constructor
  · rw [requests_valid s net hnan]
    have hbody : (s.inputValues.map parseFloat).map jsonOfNum =
        s.inputValues.map fun v => Json.num ((parseFloat v).toQ) := by
      rw [List.map_map]
      refine List.map_congr_left fun v hv => ?_
      have := hfin v hv
      cases hp : parseFloat v <;>
        simp_all [Function.comp, jsonOfNum, JsNum.isFinite, JsNum.toQ]
    show [predictRequest ((s.inputValues.map parseFloat))] = _
    unfold predictRequest endpointUrl
    rw [hbody]
  · rw [List.length_map, hlen]

def validState : AppState := { initState with inputValues := sampleValues }

theorem c1_witness :
    (validState.inputValues.length = 30 ∧
     ∀ v ∈ validState.inputValues, (parseFloat v).isFinite = true) ∧
    ((handleSubmit validState (.failure "down")).2 =
      [{ url := "https://cancer-web-production.up.railway.app/predict/"
         method := "POST"
         headers := [("Content-Type", "application/json")]
         body := Json.obj [("input_data",
           Json.arr (validState.inputValues.map fun v =>
             Json.num ((parseFloat v).toQ)))] }] ∧
     (validState.inputValues.map fun v =>
       Json.num ((parseFloat v).toQ)).length = 30) :=
  ⟨⟨by decide, by decide⟩,
   c1_submit_posts_parsed_vector validState (.failure "down")
     (by decide) (by decide)⟩

/-- `C2` counterexample: the entry `"Infinity"` does not parse as a
finite number, yet a 30-entry vector containing it passes the NaN-only
validation: `submit()` issues one network call and does not set the
validation error, refuting the claim that any non-finite entry leads to
zero network calls and the validation error. -/
theorem c2_counterexample :
    ((parseFloat "Infinity").isFinite = false ∧
     ("Infinity" :: List.replicate 29 "1").length = 30) ∧
    (handleSubmit
        { initState with inputValues := "Infinity" :: List.replicate 29 "1" }
        (.failure "down")).2.length = 1 ∧
    (handleSubmit
        { initState with inputValues := "Infinity" :: List.replicate 29 "1" }
        (.failure "down")).1.error ≠ some validationErrorText := by
  refine ⟨⟨by decide, by decide⟩, ?_, ?_⟩
  · rw [requests_valid _ _ (by decide)]
    rfl
  · rw [handleSubmit_state_netfail _ _ (by decide)]
    decide

/-- `C2` as amended: for every 30-entry feature vector containing at
least one entry that parses as NaN (does not parse as a number at all),
`submit()` issues zero network calls and sets the error to exactly
`All fields must contain valid numbers`. -/
theorem c2_nan_blocks_submission (s : AppState) (net : FetchOutcome)
    (hlen : s.inputValues.length = 30)
    (hnan : ∃ v ∈ s.inputValues, (parseFloat v).isNaN = true) :
    (handleSubmit s net).2 = [] ∧
    (handleSubmit s net).1.error = some "All fields must contain valid numbers" := by
  have hany : (s.inputValues.map parseFloat).any JsNum.isNaN = true := by
    rw [List.any_eq_true]
    obtain ⟨v, hv, hp⟩ := hnan
    exact ⟨parseFloat v, List.mem_map_of_mem parseFloat hv, hp⟩
  constructor
  · show requestsOf (handleSubmitTrace s.inputValues net) = []
    rw [trace_invalid _ _ hany]
    rfl
  · rw [handleSubmit_state_invalid _ _ hany]
    rfl

def invalidState : AppState :=
  { initState with inputValues := "abc" :: List.replicate 29 "1" }

theorem c2_witness :
    (invalidState.inputValues.length = 30 ∧
     ∃ v ∈ invalidState.inputValues, (parseFloat v).isNaN = true) ∧
    ((handleSubmit invalidState (.failure "down")).2 = [] ∧
     (handleSubmit invalidState (.failure "down")).1.error =
       some "All fields must contain valid numbers") :=
  ⟨⟨by decide, ⟨"abc", by decide, by decide⟩⟩,
   c2_nan_blocks_submission invalidState (.failure "down") (by decide)
     ⟨"abc", by decide, by decide⟩⟩

/-- `C3`: when the validation passes and the HTTP response has a non-2xx
status, `submit()` leaves the stored Prediction Result unchanged and
sets the error to exactly `API error: ` followed by the status code. -/
theorem c3_api_error_on_bad_status (s : AppState) (resp : FetchResponse)
    (hvalid : ∀ v ∈ s.inputValues, (parseFloat v).isNaN = false)
    (hbad : resp.ok = false) :
    (handleSubmit s (.success resp)).1.predictionResult = s.predictionResult ∧
    (handleSubmit s (.success resp)).1.error =
      some ("API error: " ++ toString resp.status) := by
  rw [handleSubmit_state_badstatus s resp (any_isNaN_eq_false _ hvalid) hbad]
  exact ⟨rfl, rfl⟩

theorem c3_witness :
    ((∀ v ∈ validState.inputValues, (parseFloat v).isNaN = false) ∧
     FetchResponse.ok { status := 500, jsonBody := .error "" } = false) ∧
    ((handleSubmit validState
        (.success { status := 500, jsonBody := .error "" })).1.predictionResult =
      validState.predictionResult ∧
     (handleSubmit validState
        (.success { status := 500, jsonBody := .error "" })).1.error =
      some ("API error: " ++ toString (500 : ℕ))) :=
  ⟨⟨by decide, by decide⟩,
   c3_api_error_on_bad_status validState { status := 500, jsonBody := .error "" }
     (by decide) (by decide)⟩

/-- `C4`: when the network call itself fails, or the response is ok but
its body fails to parse as JSON, `submit()` sets the error to the
underlying failure message, or to the fallback text
`An error occurred while making the prediction` when that message is
empty. -/
theorem c4_failure_message_or_fallback (s : AppState) (net : FetchOutcome)
    (msg : String)
    (hvalid : ∀ v ∈ s.inputValues, (parseFloat v).isNaN = false)
    (hfail : net = .failure msg ∨
      ∃ resp, net = .success resp ∧ resp.ok = true ∧ resp.jsonBody = .error msg) :
    (handleSubmit s net).1.error =
      some (if msg = "" then "An error occurred while making the prediction"
            else msg) := by
  have hnan := any_isNaN_eq_false _ hvalid
  rcases hfail with rfl | ⟨resp, rfl, hok, hb⟩
  · rw [handleSubmit_state_netfail s msg hnan]
    rfl
  · rw [handleSubmit_state_badjson s resp msg hnan hok hb]
    rfl

theorem c4_witness :
    ((∀ v ∈ validState.inputValues, (parseFloat v).isNaN = false) ∧
     (FetchOutcome.failure "" = .failure "" ∨
      ∃ resp, FetchOutcome.failure "" = .success resp ∧ resp.ok = true ∧
        resp.jsonBody = .error "")) ∧
    (handleSubmit validState (.failure "")).1.error =
      some (if "" = "" then "An error occurred while making the prediction"
            else "") :=
  ⟨⟨by decide, Or.inl rfl⟩,
   c4_failure_message_or_fallback validState (.failure "") ""
     (by decide) (Or.inl rfl)⟩

/-- `C5`: on every run of `submit()`, the first effect sets the
in-flight flag to true, the last effect sets it back to false, no effect
in between touches it (so it is true strictly between submission start
and the terminal event of any exit path), and the post-state has the
flag false. -/
theorem c5_loading_flag_lifecycle (s : AppState) (net : FetchOutcome) :
    ∃ mid, handleSubmitTrace s.inputValues net =
        Effect.setIsLoading true :: (mid ++ [Effect.setIsLoading false]) ∧
      (∀ e ∈ mid, ∀ b, e ≠ Effect.setIsLoading b) ∧
      (handleSubmit s net).1.isLoading = false := by
  rcases hany : (s.inputValues.map parseFloat).any JsNum.isNaN with _ | _
  · rcases net with msg | resp
    · refine ⟨[.setError none,
        .fetchRequest (predictRequest (s.inputValues.map parseFloat)),
        .setError (some (orFallback msg))], ?_, ?_, ?_⟩
      · rw [trace_valid_failure _ _ hany]; rfl
      · intro e he b
        simp only [List.mem_cons, List.not_mem_nil, or_false] at he
        rcases he with rfl | rfl | rfl <;> simp
      · rw [handleSubmit_state_netfail s msg hany]
    · rcases hok : resp.ok with _ | _
      · refine ⟨[.setError none,
          .fetchRequest (predictRequest (s.inputValues.map parseFloat)),
          .setError (some (orFallback ("API error: " ++ toString resp.status)))],
          ?_, ?_, ?_⟩
        · rw [trace_valid_badstatus _ _ hany hok]; rfl
        · intro e he b
          simp only [List.mem_cons, List.not_mem_nil, or_false] at he
          rcases he with rfl | rfl | rfl <;> simp
        · rw [handleSubmit_state_badstatus s resp hany hok]
      · rcases hb : resp.jsonBody with msg | data
        · refine ⟨[.setError none,
            .fetchRequest (predictRequest (s.inputValues.map parseFloat)),
            .setError (some (orFallback msg))], ?_, ?_, ?_⟩
          · rw [trace_valid_badjson _ _ _ hany hok hb]; rfl
          · intro e he b
            simp only [List.mem_cons, List.not_mem_nil, or_false] at he
            rcases he with rfl | rfl | rfl <;> simp
          · rw [handleSubmit_state_badjson s resp msg hany hok hb]
        · refine ⟨[.setError none,
            .fetchRequest (predictRequest (s.inputValues.map parseFloat)),
            .setPredictionResult (some data)], ?_, ?_, ?_⟩
          · rw [trace_valid_ok _ _ _ hany hok hb]; rfl
          · intro e he b
            simp only [List.mem_cons, List.not_mem_nil, or_false] at he
            rcases he with rfl | rfl | rfl <;> simp
          · rw [handleSubmit_state_ok s resp data hany hok hb]
  · refine ⟨[.setError none, .setError (some validationErrorText)], ?_, ?_, ?_⟩
    · rw [trace_invalid _ _ hany]; rfl
    · intro e he b
      simp only [List.mem_cons, List.not_mem_nil, or_false] at he
      rcases he with rfl | rfl <;> simp
    · rw [handleSubmit_state_invalid _ _ hany]

/-- Combined failure condition of a run of `submit()`: a NaN among the
parsed fields, a rejected `fetch`, a non-ok status, or a JSON parse
failure of the body. -/
def submissionFails (inputs : List String) (net : FetchOutcome) : Bool :=
  (inputs.map parseFloat).any JsNum.isNaN ||
  (match net with
   | .failure _ => true
   | .success resp =>
     !resp.ok ||
     (match resp.jsonBody with
      | .error _ => true
      | .ok _ => false))

/-- `C9`: on every failing exit path of `submit()` (validation failure,
rejected fetch, non-2xx status, or JSON parse failure), the stored
Prediction Result is left unchanged. -/
theorem c9_failing_paths_preserve_result (s : AppState) (net : FetchOutcome)
    (h : submissionFails s.inputValues net = true) :
    (handleSubmit s net).1.predictionResult = s.predictionResult := by
  rcases hany : (s.inputValues.map parseFloat).any JsNum.isNaN with _ | _
  · rcases net with msg | resp
    · rw [handleSubmit_state_netfail s msg hany]
    · rcases hok : resp.ok with _ | _
      · rw [handleSubmit_state_badstatus s resp hany hok]
      · rcases hb : resp.jsonBody with msg | data
        · rw [handleSubmit_state_badjson s resp msg hany hok hb]
        · exfalso
          rw [submissionFails, hany, hb] at h
          simp [hok] at h
  · rw [handleSubmit_state_invalid _ _ hany]

theorem c9_witness :
    submissionFails initState.inputValues (.failure "down") = true ∧
    (handleSubmit initState (.failure "down")).1.predictionResult =
      initState.predictionResult :=
  ⟨by decide,
   c9_failing_paths_preserve_result initState (.failure "down") (by decide)⟩

theorem step_preserves_length (s : AppState) (op : UIOp)
    (h : s.inputValues.length = 30) :
    (step s op).inputValues.length = 30 := by
  cases op with
  | change index value =>
    show (s.inputValues.set index value).length = 30
    rw [List.length_set, h]
  | fillSample => rfl
  | reset => rfl
  | submit net =>
    show ((handleSubmit s net).1).inputValues.length = 30
    show (runEffects s (handleSubmitTrace s.inputValues net)).inputValues.length = 30
    rw [runEffects_inputValues, h]

theorem foldl_step_length (ops : List UIOp) (s : AppState)
    (hs : s.inputValues.length = 30) :
    ((ops.foldl step s).inputValues).length = 30 := by
  induction ops generalizing s with
  | nil => exact hs
  | cons op ops ih => exact ih _ (step_preserves_length s op hs)

/-- `C10`: under every sequence of UI-reachable operations (field
changes at indices 0 through 29, fill-sample, reset, submit), the
feature vector keeps exactly 30 entries, starting from the initial
state. -/
theorem c10_vector_length_invariant (ops : List UIOp)
    (h : ∀ op ∈ ops, op.inRange = true) :
    ((ops.foldl step initState).inputValues).length = 30 :=
  foldl_step_length ops initState (by decide)

theorem c10_witness :
    (∀ op ∈ [UIOp.change 0 "abc", UIOp.fillSample,
      UIOp.submit (.failure ""), UIOp.reset,
      UIOp.submit (.success { status := 200, jsonBody := .error "bad json" })],
      op.inRange = true) ∧
    ((([UIOp.change 0 "abc", UIOp.fillSample,
      UIOp.submit (.failure ""), UIOp.reset,
      UIOp.submit (.success { status := 200, jsonBody := .error "bad json" })]).foldl
        step initState).inputValues).length = 30 :=
  ⟨by decide,
   c10_vector_length_invariant _ (by decide)⟩
